import Mathlib

/-!
# Verification of the `pysume` resume data model (`template.py`)

A shallow embedding of the `Resume` class of `template.py`: a
`collections.UserDict` whose `data` dict holds the ten sections of a JSON
resume, with per-section add/remove/update methods, date normalization to
ISO-8601 strings, and JSON file load/save.

Modelling conventions:
* JSON values are the inductive `Json`; numbers are modelled as integers
  (no claim involves fractional numbers).
* A Python `dict` is an association list `List (String × Json)` with
  insertion order; `dict[k] = v` replaces the first entry with key `k` in
  place or appends at the end (`updEntry`), `dict.update(other)` folds
  `updEntry` over `other`'s entries in order (`dictUpdate`), matching
  CPython's order-preserving semantics.
* A raised Python exception is `Except.error` carrying a `PyErr`; every
  error branch is produced before any modified `Resume` is constructed,
  mirroring that each method's single mutating statement in the source
  either succeeds atomically or raises before mutating.
* The file system is a map from path to `FileContent`; a file is absent
  (`none`), unparseable JSON (`invalid`), or parses to a `Json` value
  (`valid j`).  `save` stores the document's `data` as the parsed value of
  the written file, identifying `json.JSONEncoder().encode` with the value
  it serializes: for values of type `Json` the encoder always succeeds and
  `json.load` parses its output back to an equal structure.
-/

set_option autoImplicit false

/-- JSON values, as produced by Python's `json.load`.  Numbers are
restricted to integers; no claim involves fractional values. -/
inductive Json where
  | null : Json
  | bool (b : Bool) : Json
  | num (n : Int) : Json
  | str (s : String) : Json
  | arr (elems : List Json) : Json
  | obj (fields : List (String × Json)) : Json

/-- `true` exactly for `Json.obj` values (a Python `dict`). -/
def Json.isObj : Json → Bool
  | .obj _ => true
  | _ => false

/-- `true` exactly for `Json.arr` values (a Python `list`). -/
def Json.isArr : Json → Bool
  | .arr _ => true
  | _ => false

/-- The Python exceptions the `Resume` methods can raise. -/
inductive PyErr where
  | keyError (k : String) : PyErr
  | indexError : PyErr
  | attributeError : PyErr
  | typeError : PyErr
  | valueError : PyErr
  | fileNotFound : PyErr
  | jsonDecodeError : PyErr
  deriving DecidableEq, Repr

/-- A calendar date (`datetime.date`); field validation is irrelevant to
the claims, only `isoformat` matters. -/
structure Date where
  year : Nat
  month : Nat
  day : Nat
  deriving DecidableEq, Repr

/-- Left-pad the decimal representation of `n` with zeros to `width`
characters, as Python's `%0Nd` formatting does. -/
def padNat (width n : Nat) : String :=
  let s := toString n
  String.mk (List.replicate (width - s.length) '0') ++ s

/-- `datetime.date.isoformat`: `YYYY-MM-DD` with zero padding. -/
def Date.isoformat (d : Date) : String :=
  padNat 4 d.year ++ "-" ++ padNat 2 d.month ++ "-" ++ padNat 2 d.day

/-- First value stored under key `k` (Python `dict` lookup; a Python dict
never holds duplicate keys, so first = only). -/
def lookupEntry (k : String) : List (String × Json) → Option Json
  | [] => none
  | (k', v) :: rest => if k' = k then some v else lookupEntry k rest

/-- Python `d[k] = v`: replace the first entry with key `k` in place,
keeping its position, or append `(k, v)` at the end. -/
def updEntry (k : String) (v : Json) : List (String × Json) → List (String × Json)
  | [] => [(k, v)]
  | (k', v') :: rest => if k' = k then (k, v) :: rest else (k', v') :: updEntry k v rest

/-- Python `base.update(upd)`: apply `upd`'s entries to `base` in order. -/
def dictUpdate (base upd : List (String × Json)) : List (String × Json) :=
  upd.foldl (fun acc p => updEntry p.1 p.2 acc) base

/-- Python list index normalization: a negative index counts from the end;
`none` when the (normalized) index is out of range. -/
def pyNormIdx (n : Nat) (i : Int) : Option Nat :=
  let j := if i < 0 then i + n else i
  if 0 ≤ j ∧ j < n then some j.toNat else none

/-- The content found at a path: `invalid` is a file that `json.load`
rejects, `valid j` a file whose JSON text parses to `j`. -/
inductive FileContent where
  | invalid : FileContent
  | valid (j : Json) : FileContent

/-- The file system: `none` means no file at that path. -/
def FS : Type := String → Option FileContent

/-- The `Resume` object: `location` is the url/path attribute, `data` the
`UserDict` dictionary holding the sections. -/
structure Resume where
  location : String
  data : List (String × Json)

/-- `UserDict.__getitem__`: `self[k]`, raising `KeyError` when absent. -/
def Resume.getItem (r : Resume) (k : String) : Except PyErr Json :=
  match lookupEntry k r.data with
  | some v => .ok v
  | none => .error (.keyError k)

/-- `self.data[k] = v`. -/
def Resume.setItem (r : Resume) (k : String) (v : Json) : Resume :=
  { r with data := updEntry k v r.data }

/-- `Resume.__init__`: stores the ten sections in `data` in declaration
order and sets `location`.  (The Python defaults are shared mutable
objects — a value-level model cannot express that aliasing, and no claim
depends on it; each argument is typed as its annotation says.) -/
def Resume.init (location : String) (basics : List (String × Json))
    (work volunteer education awards publications skills languages interests
     references : List Json) : Resume :=
  { location := location
    data := [("basics", .obj basics),
             ("work", .arr work),
             ("volunteer", .arr volunteer),
             ("education", .arr education),
             ("awards", .arr awards),
             ("publications", .arr publications),
             ("skills", .arr skills),
             ("languages", .arr languages),
             ("interests", .arr interests),
             ("references", .arr references)] }

/-- `Resume()` with every argument left at its default. -/
def Resume.initDefault : Resume :=
  Resume.init "" [] [] [] [] [] [] [] [] [] []

/-- The class variable `categories`. -/
def Resume.categories : List String :=
  ["basics", "work", "volunteer", "education", "awards",
   "publications", "skills", "languages", "interests", "references"]

/-- Outcome of `self.data.update(x)`: success with the merged dictionary,
or an exception raised after a prefix of the key/value pairs was already
applied (`dict.update` on a pair sequence mutates pair by pair, so the
pairs before the bad element stay applied while the exception
propagates). -/
inductive UpdateOutcome where
  | ok (d : List (String × Json)) : UpdateOutcome
  | err (e : PyErr) (applied : List (String × Json)) : UpdateOutcome

/-- One element of a key/value-pair sequence passed to `dict.update`
(CPython `PyDict_MergeFromSeq2`): the element must be a sequence of
length 2 (a two-element list, or a two-character string whose characters
become key and value), else `ValueError`; a key that is a list or dict is
unhashable (`TypeError`); a non-sequence element (number, boolean, null,
dict) raises `TypeError`.  A pair under a hashable non-string key
(number, boolean, null) is stored by CPython under that non-string key;
no string lookup — in particular no section key — can ever observe such
an entry, and the string-keyed dictionary of this model omits it
(`.ok none`). -/
def seq2Elem : Json → Except PyErr (Option (String × Json))
  | .arr [k, v] =>
    match k with
    | .str s => .ok (some (s, v))
    | .num _ => .ok none
    | .bool _ => .ok none
    | .null => .ok none
    | .arr _ => .error .typeError
    | .obj _ => .error .typeError
  | .arr _ => .error .valueError
  | .str s =>
    match s.toList with
    | [c0, c1] => .ok (some (String.mk [c0], .str (String.mk [c1])))
    | _ => .error .valueError
  | _ => .error .typeError

/-- `dict.update` on a sequence of key/value pairs: apply the elements in
order, keeping the already-applied prefix when an element raises. -/
def seq2Merge (d : List (String × Json)) : List Json → UpdateOutcome
  | [] => .ok d
  | e :: rest =>
    match seq2Elem e with
    | .ok (some (k, v)) => seq2Merge (updEntry k v d) rest
    | .ok none => seq2Merge d rest
    | .error ex => .err ex d

/-- `self.data.update(resume)` for every value `json.load` can return:
a dict merges; a list is treated as a sequence of key/value pairs
(`seq2Merge`); a string iterates its characters as would-be pairs, so a
non-empty string raises `ValueError` at its first (length-1) character
and the empty string is a successful no-op; numbers, booleans and null
are not iterable (`TypeError`). -/
def dataUpdate (d : List (String × Json)) : Json → UpdateOutcome
  | .obj fields => .ok (dictUpdate d fields)
  | .arr elems => seq2Merge d elems
  | .str s => if s = "" then .ok d else .err .valueError d
  | _ => .err .typeError d

/-- `open_from_file`: `json.load` the file at `location` (raising
`FileNotFoundError` / `json.JSONDecodeError` before any mutation), then
`self.data.update(resume)` (see `dataUpdate`) and, only after the update
returned, `self.location = location`.  When the update raises partway
through a pair sequence, CPython keeps the already-applied pairs (the
`applied` field of the outcome) while the exception propagates with
`location` unset; here the error is surfaced with the document unchanged:
the prior state is kept on every exception by the sequence semantics
(`step`), and the applied prefix of a file whose pairs satisfy
`fileSectionsOk` satisfies it as well, so the section invariants cannot
distinguish the two. -/
def Resume.open_from_file (fs : FS) (r : Resume) (location : String) :
    Except PyErr Resume :=
  match fs location with
  | none => .error .fileNotFound
  | some .invalid => .error .jsonDecodeError
  | some (.valid resume) =>
    match dataUpdate r.data resume with
    | .ok dNew => .ok { location := location, data := dNew }
    | .err e _ => .error e

/-- `save`: `open(self.location, 'w')` (raising `FileNotFoundError` on the
empty default path) then write `JSONEncoder().encode(self.data)`; the
model stores the encoded dictionary as the parsed content of the file.
(A non-string key that a pair-list `dict.update` may have introduced is
written by the encoder as its string form — `"5"`, `"true"`, `"null"` —
never one of the ten section keys; the model's dictionary omits such
entries, see `seq2Elem`.) -/
def Resume.save (fs : FS) (r : Resume) : Except PyErr FS :=
  if r.location = "" then .error .fileNotFound
  else .ok (fun p => if p = r.location then some (.valid (.obj r.data)) else fs p)

/-- `self[key].append(rec)` for a top-level section list (`AttributeError`
when the value stored under `key` is not a list). -/
def Resume.appendTo (r : Resume) (key : String) (rec : Json) : Except PyErr Resume :=
  match r.getItem key with
  | .error e => .error e
  | .ok (.arr xs) => .ok (r.setItem key (.arr (xs ++ [rec])))
  | .ok _ => .error .attributeError

/-- `del self[key][index]` for a top-level section list (`IndexError` on
an out-of-range index, after Python's negative-index normalization). -/
def Resume.delAt (r : Resume) (key : String) (index : Int) : Except PyErr Resume :=
  match r.getItem key with
  | .error e => .error e
  | .ok (.arr xs) =>
    match pyNormIdx xs.length index with
    | some j => .ok (r.setItem key (.arr (xs.eraseIdx j)))
    | none => .error .indexError
  | .ok _ => .error .typeError

/-- `self[key][index].update(newFields)` for a top-level section list:
index the list (`IndexError` out of range), then merge `newFields` into
the record dict (`AttributeError` when the element is not a dict). -/
def Resume.updAt (r : Resume) (key : String) (index : Int)
    (newFields : List (String × Json)) : Except PyErr Resume :=
  match r.getItem key with
  | .error e => .error e
  | .ok (.arr xs) =>
    match pyNormIdx xs.length index with
    | none => .error .indexError
    | some j =>
      match xs.get? j with
      | none => .error .indexError
      | some (.obj fields) =>
        .ok (r.setItem key (.arr (xs.set j (.obj (dictUpdate fields newFields)))))
      | some _ => .error .attributeError
  | .ok _ => .error .typeError

/-- `endDate` normalization shared by work/volunteer/education: `if
end_date: end_date = end_date.isoformat()` with a `None` default — a
`datetime.date` is always truthy, so `some d` becomes its ISO string and
`none` stays `None` (JSON null). -/
def endDateJson : Option Date → Json
  | some d => .str d.isoformat
  | none => .null

/-- `update_basics`: merge the seven fields into `self["basics"]`. -/
def Resume.update_basics (r : Resume) (name label picture email phone website
    summary : String) : Except PyErr Resume :=
  match r.getItem "basics" with
  | .error e => .error e
  | .ok (.obj bf) =>
    .ok (r.setItem "basics" (.obj (dictUpdate bf
      [("name", .str name), ("label", .str label), ("picture", .str picture),
       ("email", .str email), ("phone", .str phone), ("website", .str website),
       ("summary", .str summary)])))
  | .ok _ => .error .attributeError

/-- `update_location`: `self["basics"]["location"].update({...})` —
`KeyError` when `basics` has no `"location"` entry, `AttributeError` when
that entry is not a dict; nothing is created on failure. -/
def Resume.update_location (r : Resume) (address postal_code city country_code
    region : String) : Except PyErr Resume :=
  match r.getItem "basics" with
  | .error e => .error e
  | .ok (.obj bf) =>
    match lookupEntry "location" bf with
    | none => .error (.keyError "location")
    | some (.obj lf) =>
      .ok (r.setItem "basics" (.obj (updEntry "location" (.obj (dictUpdate lf
        [("address", .str address), ("postalCode", .str postal_code),
         ("city", .str city), ("countryCode", .str country_code),
         ("region", .str region)])) bf)))
    | some _ => .error .attributeError
  | .ok _ => .error .typeError

/-- `add_profile`: `self["basics"]["profiles"].append({...})` — `KeyError`
when `basics` has no `"profiles"` entry; nothing is created on failure. -/
def Resume.add_profile (r : Resume) (network username url : String) :
    Except PyErr Resume :=
  match r.getItem "basics" with
  | .error e => .error e
  | .ok (.obj bf) =>
    match lookupEntry "profiles" bf with
    | none => .error (.keyError "profiles")
    | some (.arr ps) =>
      .ok (r.setItem "basics" (.obj (updEntry "profiles" (.arr (ps ++
        [.obj [("network", .str network), ("username", .str username),
               ("url", .str url)]])) bf)))
    | some _ => .error .attributeError
  | .ok _ => .error .typeError

/-- `remove_profile`: `del self["basics"]["profiles"][index]`. -/
def Resume.remove_profile (r : Resume) (index : Int) : Except PyErr Resume :=
  match r.getItem "basics" with
  | .error e => .error e
  | .ok (.obj bf) =>
    match lookupEntry "profiles" bf with
    | none => .error (.keyError "profiles")
    | some (.arr ps) =>
      match pyNormIdx ps.length index with
      | some j => .ok (r.setItem "basics" (.obj (updEntry "profiles"
          (.arr (ps.eraseIdx j)) bf)))
      | none => .error .indexError
    | some _ => .error .typeError
  | .ok _ => .error .typeError

/-- `update_profile`: `self["basics"]["profiles"][index].update({...})`. -/
def Resume.update_profile (r : Resume) (index : Int) (network username url :
    String) : Except PyErr Resume :=
  match r.getItem "basics" with
  | .error e => .error e
  | .ok (.obj bf) =>
    match lookupEntry "profiles" bf with
    | none => .error (.keyError "profiles")
    | some (.arr ps) =>
      match pyNormIdx ps.length index with
      | none => .error .indexError
      | some j =>
        match ps.get? j with
        | none => .error .indexError
        | some (.obj pf) =>
          .ok (r.setItem "basics" (.obj (updEntry "profiles" (.arr (ps.set j
            (.obj (dictUpdate pf
              [("network", .str network), ("username", .str username),
               ("url", .str url)])))) bf)))
        | some _ => .error .attributeError
    | some _ => .error .typeError
  | .ok _ => .error .typeError

/-- The record dict built by `add_work` / `update_work`, in the literal's
key order. -/
def workRecord (company position website summary : String)
    (highlights : List Json) (start_date : Date) (end_date : Option Date) :
    List (String × Json) :=
  [("company", .str company), ("position", .str position),
   ("website", .str website), ("startDate", .str start_date.isoformat),
   ("endDate", endDateJson end_date), ("summary", .str summary),
   ("highlights", .arr highlights)]

/-- `add_work`: append the work record to `self["work"]`. -/
def Resume.add_work (r : Resume) (company position website summary : String)
    (highlights : List Json) (start_date : Date) (end_date : Option Date) :
    Except PyErr Resume :=
  r.appendTo "work" (.obj (workRecord company position website summary
    highlights start_date end_date))

/-- `remove_work`: `del self["work"][index]`. -/
def Resume.remove_work (r : Resume) (index : Int) : Except PyErr Resume :=
  r.delAt "work" index

/-- `update_work`: `self["work"][index].update({...})`. -/
def Resume.update_work (r : Resume) (index : Int) (company position website
    summary : String) (highlights : List Json) (start_date : Date)
    (end_date : Option Date) : Except PyErr Resume :=
  r.updAt "work" index (workRecord company position website summary
    highlights start_date end_date)

/-- The record dict built by `add_volunteer` / `update_volunteer`. -/
def volunteerRecord (organization position website summary : String)
    (highlights : List Json) (start_date : Date) (end_date : Option Date) :
    List (String × Json) :=
  [("organization", .str organization), ("position", .str position),
   ("website", .str website), ("startDate", .str start_date.isoformat),
   ("endDate", endDateJson end_date), ("summary", .str summary),
   ("highlights", .arr highlights)]

/-- `add_volunteer`: append the volunteer record to `self["volunteer"]`. -/
def Resume.add_volunteer (r : Resume) (organization position website summary :
    String) (highlights : List Json) (start_date : Date)
    (end_date : Option Date) : Except PyErr Resume :=
  r.appendTo "volunteer" (.obj (volunteerRecord organization position website
    summary highlights start_date end_date))

/-- `remove_volunteer`: `del self["volunteer"][index]`. -/
def Resume.remove_volunteer (r : Resume) (index : Int) : Except PyErr Resume :=
  r.delAt "volunteer" index

/-- `update_volunteer`: `self["volunteer"][index].update({...})`. -/
def Resume.update_volunteer (r : Resume) (index : Int) (organization position
    website summary : String) (highlights : List Json) (start_date : Date)
    (end_date : Option Date) : Except PyErr Resume :=
  r.updAt "volunteer" index (volunteerRecord organization position website
    summary highlights start_date end_date)

/-- The record dict built by `add_education` / `update_education`. -/
def educationRecord (institution area study_type gpa : String)
    (courses : List Json) (start_date : Date) (end_date : Option Date) :
    List (String × Json) :=
  [("institution", .str institution), ("area", .str area),
   ("studyType", .str study_type), ("gpa", .str gpa),
   ("startDate", .str start_date.isoformat), ("endDate", endDateJson end_date),
   ("courses", .arr courses)]

/-- `add_education`: append the education record to `self["education"]`. -/
def Resume.add_education (r : Resume) (institution area study_type gpa :
    String) (courses : List Json) (start_date : Date)
    (end_date : Option Date) : Except PyErr Resume :=
  r.appendTo "education" (.obj (educationRecord institution area study_type
    gpa courses start_date end_date))

/-- `remove_education`: `del self["education"][index]`. -/
def Resume.remove_education (r : Resume) (index : Int) : Except PyErr Resume :=
  r.delAt "education" index

/-- `update_education`: `self["education"][index].update({...})`. -/
def Resume.update_education (r : Resume) (index : Int) (institution area
    study_type gpa : String) (courses : List Json) (start_date : Date)
    (end_date : Option Date) : Except PyErr Resume :=
  r.updAt "education" index (educationRecord institution area study_type gpa
    courses start_date end_date)

/-- The record dict built by `add_award` / `update_award`; `date` has no
default, so it is always a date and always ISO-formatted. -/
def awardRecord (title : String) (date : Date) (awarder summary : String) :
    List (String × Json) :=
  [("title", .str title), ("date", .str date.isoformat),
   ("awarder", .str awarder), ("summary", .str summary)]

/-- `add_award`: append the award record to `self["awards"]`. -/
def Resume.add_award (r : Resume) (title : String) (date : Date)
    (awarder summary : String) : Except PyErr Resume :=
  r.appendTo "awards" (.obj (awardRecord title date awarder summary))

/-- `remove_award`: `del self["awards"][index]`. -/
def Resume.remove_award (r : Resume) (index : Int) : Except PyErr Resume :=
  r.delAt "awards" index

/-- `update_award`: `self["awards"][index].update({...})`. -/
def Resume.update_award (r : Resume) (index : Int) (title : String)
    (date : Date) (awarder summary : String) : Except PyErr Resume :=
  r.updAt "awards" index (awardRecord title date awarder summary)

/-- The record dict built by `add_publication` / `update_publication`. -/
def publicationRecord (name publisher : String) (release_date : Date)
    (website summary : String) : List (String × Json) :=
  [("name", .str name), ("publisher", .str publisher),
   ("releaseDate", .str release_date.isoformat), ("website", .str website),
   ("summary", .str summary)]

/-- `add_publication`: append the record to `self["publications"]`. -/
def Resume.add_publication (r : Resume) (name publisher : String)
    (release_date : Date) (website summary : String) : Except PyErr Resume :=
  r.appendTo "publications" (.obj (publicationRecord name publisher
    release_date website summary))

/-- `remove_publication`: `del self["publications"][index]`. -/
def Resume.remove_publication (r : Resume) (index : Int) : Except PyErr Resume :=
  r.delAt "publications" index

/-- `update_publication`: `self["publications"][index].update({...})`. -/
def Resume.update_publication (r : Resume) (index : Int) (name publisher :
    String) (release_date : Date) (website summary : String) :
    Except PyErr Resume :=
  r.updAt "publications" index (publicationRecord name publisher release_date
    website summary)

/-- The record dict built by `add_skill` / `update_skill`. -/
def skillRecord (name level : String) (keywords : List Json) :
    List (String × Json) :=
  [("name", .str name), ("level", .str level), ("keywords", .arr keywords)]

/-- `add_skill`: append the skill record to `self["skills"]`. -/
def Resume.add_skill (r : Resume) (name level : String)
    (keywords : List Json) : Except PyErr Resume :=
  r.appendTo "skills" (.obj (skillRecord name level keywords))

/-- `remove_skill`: `del self["skills"][index]`. -/
def Resume.remove_skill (r : Resume) (index : Int) : Except PyErr Resume :=
  r.delAt "skills" index

/-- `update_skill`: `self["skills"][index].update({...})`. -/
def Resume.update_skill (r : Resume) (index : Int) (name level : String)
    (keywords : List Json) : Except PyErr Resume :=
  r.updAt "skills" index (skillRecord name level keywords)

/-- The record dict built by `add_language` / `update_language`. -/
def languageRecord (language fluency : String) : List (String × Json) :=
  [("language", .str language), ("fluency", .str fluency)]

/-- `add_language`: append the language record to `self["languages"]`. -/
def Resume.add_language (r : Resume) (language fluency : String) :
    Except PyErr Resume :=
  r.appendTo "languages" (.obj (languageRecord language fluency))

/-- `remove_language`: `del self["languages"][index]`. -/
def Resume.remove_language (r : Resume) (index : Int) : Except PyErr Resume :=
  r.delAt "languages" index

/-- `update_language`: `self["languages"][index].update({...})`. -/
def Resume.update_language (r : Resume) (index : Int) (language fluency :
    String) : Except PyErr Resume :=
  r.updAt "languages" index (languageRecord language fluency)

/-- The record dict built by `add_interest` / `update_interest`. -/
def interestRecord (name : String) (keywords : List Json) :
    List (String × Json) :=
  [("name", .str name), ("keywords", .arr keywords)]

/-- `add_interest`: append the interest record to `self["interests"]`. -/
def Resume.add_interest (r : Resume) (name : String) (keywords : List Json) :
    Except PyErr Resume :=
  r.appendTo "interests" (.obj (interestRecord name keywords))

/-- `remove_interest`: `del self["interests"][index]`. -/
def Resume.remove_interest (r : Resume) (index : Int) : Except PyErr Resume :=
  r.delAt "interests" index

/-- `update_interest`: `self["interests"][index].update({...})`. -/
def Resume.update_interest (r : Resume) (index : Int) (name : String)
    (keywords : List Json) : Except PyErr Resume :=
  r.updAt "interests" index (interestRecord name keywords)

/-- The record dict built by `add_reference` / `update_reference`. -/
def referenceRecord (name reference : String) : List (String × Json) :=
  [("name", .str name), ("reference", .str reference)]

/-- `add_reference`: append the reference record to `self["references"]`. -/
def Resume.add_reference (r : Resume) (name reference : String) :
    Except PyErr Resume :=
  r.appendTo "references" (.obj (referenceRecord name reference))

/-- `remove_reference`: `del self["references"][index]`. -/
def Resume.remove_reference (r : Resume) (index : Int) : Except PyErr Resume :=
  r.delAt "references" index

/-- `update_reference`: `self["references"][index].update({...})`. -/
def Resume.update_reference (r : Resume) (index : Int) (name reference :
    String) : Except PyErr Resume :=
  r.updAt "references" index (referenceRecord name reference)

/-- One call to a public mutating method of `Resume`, with the method's
arguments. -/
inductive Op where
  | openFile (location : String) : Op
  | saveFile : Op
  | updateBasics (name label picture email phone website summary : String) : Op
  | updateLocation (address postal_code city country_code region : String) : Op
  | addProfile (network username url : String) : Op
  | removeProfile (index : Int) : Op
  | updateProfile (index : Int) (network username url : String) : Op
  | addWork (company position website summary : String)
      (highlights : List Json) (start_date : Date) (end_date : Option Date) : Op
  | removeWork (index : Int) : Op
  | updateWork (index : Int) (company position website summary : String)
      (highlights : List Json) (start_date : Date) (end_date : Option Date) : Op
  | addVolunteer (organization position website summary : String)
      (highlights : List Json) (start_date : Date) (end_date : Option Date) : Op
  | removeVolunteer (index : Int) : Op
  | updateVolunteer (index : Int) (organization position website summary : String)
      (highlights : List Json) (start_date : Date) (end_date : Option Date) : Op
  | addEducation (institution area study_type gpa : String)
      (courses : List Json) (start_date : Date) (end_date : Option Date) : Op
  | removeEducation (index : Int) : Op
  | updateEducation (index : Int) (institution area study_type gpa : String)
      (courses : List Json) (start_date : Date) (end_date : Option Date) : Op
  | addAward (title : String) (date : Date) (awarder summary : String) : Op
  | removeAward (index : Int) : Op
  | updateAward (index : Int) (title : String) (date : Date)
      (awarder summary : String) : Op
  | addPublication (name publisher : String) (release_date : Date)
      (website summary : String) : Op
  | removePublication (index : Int) : Op
  | updatePublication (index : Int) (name publisher : String)
      (release_date : Date) (website summary : String) : Op
  | addSkill (name level : String) (keywords : List Json) : Op
  | removeSkill (index : Int) : Op
  | updateSkill (index : Int) (name level : String) (keywords : List Json) : Op
  | addLanguage (language fluency : String) : Op
  | removeLanguage (index : Int) : Op
  | updateLanguage (index : Int) (language fluency : String) : Op
  | addInterest (name : String) (keywords : List Json) : Op
  | removeInterest (index : Int) : Op
  | updateInterest (index : Int) (name : String) (keywords : List Json) : Op
  | addReference (name reference : String) : Op
  | removeReference (index : Int) : Op
  | updateReference (index : Int) (name reference : String) : Op

/-- Run one method call against the document and the file system,
propagating its exception if it raises. -/
def applyOp (fs : FS) (r : Resume) : Op → Except PyErr (Resume × FS)
  | .openFile location => (r.open_from_file fs location).map (·, fs)
  | .saveFile => (r.save fs).map (r, ·)
  | .updateBasics a b c d e f g => (r.update_basics a b c d e f g).map (·, fs)
  | .updateLocation a b c d e => (r.update_location a b c d e).map (·, fs)
  | .addProfile a b c => (r.add_profile a b c).map (·, fs)
  | .removeProfile i => (r.remove_profile i).map (·, fs)
  | .updateProfile i a b c => (r.update_profile i a b c).map (·, fs)
  | .addWork a b c d h sd ed => (r.add_work a b c d h sd ed).map (·, fs)
  | .removeWork i => (r.remove_work i).map (·, fs)
  | .updateWork i a b c d h sd ed => (r.update_work i a b c d h sd ed).map (·, fs)
  | .addVolunteer a b c d h sd ed => (r.add_volunteer a b c d h sd ed).map (·, fs)
  | .removeVolunteer i => (r.remove_volunteer i).map (·, fs)
  | .updateVolunteer i a b c d h sd ed =>
      (r.update_volunteer i a b c d h sd ed).map (·, fs)
  | .addEducation a b c d cs sd ed => (r.add_education a b c d cs sd ed).map (·, fs)
  | .removeEducation i => (r.remove_education i).map (·, fs)
  | .updateEducation i a b c d cs sd ed =>
      (r.update_education i a b c d cs sd ed).map (·, fs)
  | .addAward a dt b c => (r.add_award a dt b c).map (·, fs)
  | .removeAward i => (r.remove_award i).map (·, fs)
  | .updateAward i a dt b c => (r.update_award i a dt b c).map (·, fs)
  | .addPublication a b dt c d => (r.add_publication a b dt c d).map (·, fs)
  | .removePublication i => (r.remove_publication i).map (·, fs)
  | .updatePublication i a b dt c d =>
      (r.update_publication i a b dt c d).map (·, fs)
  | .addSkill a b ks => (r.add_skill a b ks).map (·, fs)
  | .removeSkill i => (r.remove_skill i).map (·, fs)
  | .updateSkill i a b ks => (r.update_skill i a b ks).map (·, fs)
  | .addLanguage a b => (r.add_language a b).map (·, fs)
  | .removeLanguage i => (r.remove_language i).map (·, fs)
  | .updateLanguage i a b => (r.update_language i a b).map (·, fs)
  | .addInterest a ks => (r.add_interest a ks).map (·, fs)
  | .removeInterest i => (r.remove_interest i).map (·, fs)
  | .updateInterest i a ks => (r.update_interest i a ks).map (·, fs)
  | .addReference a b => (r.add_reference a b).map (·, fs)
  | .removeReference i => (r.remove_reference i).map (·, fs)
  | .updateReference i a b => (r.update_reference i a b).map (·, fs)

/-- A raised exception propagates to the caller and the single mutating
statement never ran, so the document and file system are unchanged. -/
def step (fs : FS) (r : Resume) (op : Op) : Resume × FS :=
  match applyOp fs r op with
  | .ok rfsNew => rfsNew
  | .error _ => (r, fs)

/-- The section type expected by the spec: `basics` is an object, the
other nine sections are lists. -/
def sectionTypeOk (c : String) (v : Json) : Bool :=
  if c = "basics" then v.isObj else v.isArr

/-- Every section key is present in a section dictionary and holds a value
of its expected type. -/
def sectionsTypedData (d : List (String × Json)) : Bool :=
  Resume.categories.all fun c =>
    match lookupEntry c d with
    | some v => sectionTypeOk c v
    | none => false

/-- Every section key is present and holds a value of its expected type. -/
def Resume.sectionsWellTyped (r : Resume) : Bool :=
  sectionsTypedData r.data

/-- The keys of `data` are pairwise distinct (true of every Python dict). -/
def Resume.dataKeysNodup (r : Resume) : Prop :=
  (r.data.map Prod.fst).Nodup

/-- The section-typing constraint on a parsed file: a JSON-object file
gives each of the ten section keys it contains a value of that section's
type, and a JSON-array file (a sequence of key/value pairs) does likewise
in each pair whose key is a section key.  Other parsed values either fail
to update the dictionary or (the empty string) leave it unchanged, so
they need no constraint. -/
def fileSectionsOk : Json → Prop
  | .obj fields => ∀ p ∈ fields, p.1 ∈ Resume.categories →
      sectionTypeOk p.1 p.2 = true
  | .arr elems => ∀ e ∈ elems, ∀ s v, e = Json.arr [Json.str s, v] →
      s ∈ Resume.categories → sectionTypeOk s v = true
  | _ => True

/-- Every parseable file in the file system satisfies the section-typing
constraint. -/
def fsOk (fs : FS) : Prop :=
  ∀ path j, fs path = some (.valid j) → fileSectionsOk j

/-- An empty file system. -/
def fsEmpty : FS := fun _ => none

/-- A document whose `work` section holds one (empty) record. -/
def rOneWork : Resume :=
  Resume.init "" [] [Json.obj []] [] [] [] [] [] [] [] []

/-- An otherwise empty document pointing at `a.json`. -/
def rSaved : Resume :=
  Resume.init "a.json" [] [] [] [] [] [] [] [] [] []

/-- A file system with one file whose JSON text is an empty object. -/
def fsEmptyObjFile : FS :=
  fun p => if p = "r.json" then some (.valid (.obj [])) else none

/-- A file system with one unparseable file. -/
def fsInvalidFile : FS :=
  fun p => if p = "bad.json" then some .invalid else none

theorem lookupEntry_updEntry (key : String) (v : Json)
    (d : List (String × Json)) (k : String) :
    lookupEntry k (updEntry key v d) =
      if key = k then some v else lookupEntry k d := by
  induction d with
  | nil => simp [updEntry, lookupEntry]
  | cons p rest ih =>
    obtain ⟨k', v'⟩ := p
    by_cases h : k' = key
    · subst h
      simp only [updEntry, if_pos rfl, lookupEntry]
      by_cases h2 : k' = k <;> simp [h2]
    · simp only [updEntry, if_neg h, lookupEntry, ih]
      by_cases hk : k' = k
      · subst hk
        have : ¬ key = k' := fun hh => h hh.symm
        simp [this]
      · simp [hk]

theorem lookupEntry_append_some {k : String} {l₁ : List (String × Json)}
    {v : Json} (l₂ : List (String × Json)) (h : lookupEntry k l₁ = some v) :
    lookupEntry k (l₁ ++ l₂) = some v := by
  induction l₁ with
  | nil => simp [lookupEntry] at h
  | cons p rest ih =>
    obtain ⟨k', v'⟩ := p
    by_cases hk : k' = k
    · simp only [lookupEntry, if_pos hk] at h ⊢
      exact h
    · simp only [lookupEntry, if_neg hk] at h ⊢
      exact ih h

theorem lookupEntry_append_none {k : String} {l₁ : List (String × Json)}
    (l₂ : List (String × Json)) (h : lookupEntry k l₁ = none) :
    lookupEntry k (l₁ ++ l₂) = lookupEntry k l₂ := by
  induction l₁ with
  | nil => simp
  | cons p rest ih =>
    obtain ⟨k', v'⟩ := p
    by_cases hk : k' = k
    · simp [lookupEntry, if_pos hk] at h
    · simp only [List.cons_append, lookupEntry, if_neg hk] at h ⊢
      exact ih h

theorem lookupEntry_eq_none_iff {k : String} {d : List (String × Json)} :
    lookupEntry k d = none ↔ k ∉ d.map Prod.fst := by
  induction d with
  | nil => simp [lookupEntry]
  | cons p rest ih =>
    obtain ⟨k', v'⟩ := p
    by_cases hk : k' = k
    · subst hk
      simp [lookupEntry]
    · simp only [lookupEntry, if_neg hk, ih, List.map_cons, List.mem_cons]
      constructor
      · intro hn hor
        rcases hor with h1 | h2
        · exact hk h1.symm
        · exact hn h2
      · intro hn h2
        exact hn (Or.inr h2)

theorem mem_lookupEntry_of_nodup {k : String} {d : List (String × Json)}
    {v : Json} (hd : (d.map Prod.fst).Nodup) (h : (k, v) ∈ d) :
    lookupEntry k d = some v := by
  induction d with
  | nil => simp at h
  | cons p rest ih =>
    obtain ⟨k', v'⟩ := p
    simp only [List.map_cons, List.nodup_cons] at hd
    rcases List.mem_cons.mp h with h1 | h2
    · injection h1 with hk hv
      subst hk
      subst hv
      simp [lookupEntry]
    · have hk : k' ≠ k := by
        intro hh
        subst hh
        exact hd.1 (List.mem_map.mpr ⟨(k', v), h2, rfl⟩)
      simp only [lookupEntry, if_neg hk]
      exact ih hd.2 h2

theorem dictUpdate_nil (base : List (String × Json)) : dictUpdate base [] = base := rfl

theorem dictUpdate_cons (base : List (String × Json)) (p : String × Json)
    (upd : List (String × Json)) :
    dictUpdate base (p :: upd) = dictUpdate (updEntry p.1 p.2 base) upd := rfl

theorem lookupEntry_dictUpdate_none {k : String} {upd : List (String × Json)}
    (base : List (String × Json)) (h : lookupEntry k upd.reverse = none) :
    lookupEntry k (dictUpdate base upd) = lookupEntry k base := by
  induction upd generalizing base with
  | nil => rfl
  | cons p rest ih =>
    obtain ⟨k', v'⟩ := p
    rw [List.reverse_cons] at h
    have h1 : lookupEntry k rest.reverse = none := by
      cases hrev : lookupEntry k rest.reverse with
      | none => rfl
      | some w =>
        rw [lookupEntry_append_some _ hrev] at h
        exact absurd h (by simp)
    have h2 : ¬ k' = k := by
      intro hk
      rw [lookupEntry_append_none _ h1] at h
      simp [lookupEntry, hk] at h
    rw [dictUpdate_cons, ih _ h1, lookupEntry_updEntry, if_neg h2]

theorem lookupEntry_dictUpdate_some {k : String} {upd : List (String × Json)}
    {v : Json} (base : List (String × Json))
    (h : lookupEntry k upd.reverse = some v) :
    lookupEntry k (dictUpdate base upd) = some v := by
  induction upd generalizing base with
  | nil => simp [lookupEntry] at h
  | cons p rest ih =>
    obtain ⟨k', v'⟩ := p
    rw [List.reverse_cons] at h
    rw [dictUpdate_cons]
    cases hrev : lookupEntry k rest.reverse with
    | some w =>
      rw [lookupEntry_append_some _ hrev] at h
      have hw : w = v := by simpa using h
      subst hw
      exact ih _ hrev
    | none =>
      rw [lookupEntry_append_none _ hrev] at h
      have hk : k' = k := by
        by_cases hk : k' = k
        · exact hk
        · simp [lookupEntry, hk] at h
      have hv : v' = v := by simpa [lookupEntry, hk] using h
      rw [lookupEntry_dictUpdate_none _ hrev, lookupEntry_updEntry, if_pos hk, hv]

theorem updEntry_of_lookup {k : String} {v : Json} {d : List (String × Json)}
    (h : lookupEntry k d = some v) : updEntry k v d = d := by
  induction d with
  | nil => simp [lookupEntry] at h
  | cons p rest ih =>
    obtain ⟨k', v'⟩ := p
    by_cases hk : k' = k
    · subst hk
      have hv : v' = v := by simpa [lookupEntry] using h
      subst hv
      simp [updEntry]
    · simp only [lookupEntry, if_neg hk] at h
      simp [updEntry, hk, ih h]

theorem dictUpdate_of_lookup {upd base : List (String × Json)}
    (h : ∀ p ∈ upd, lookupEntry p.1 base = some p.2) :
    dictUpdate base upd = base := by
  induction upd with
  | nil => rfl
  | cons p rest ih =>
    rw [dictUpdate_cons, updEntry_of_lookup (h p (List.mem_cons_self _ _))]
    exact ih fun q hq => h q (List.mem_cons_of_mem _ hq)

/-- Updating a dict with itself changes nothing (keys of a Python dict are
distinct). -/
theorem dictUpdate_self {d : List (String × Json)}
    (hd : (d.map Prod.fst).Nodup) : dictUpdate d d = d :=
  dictUpdate_of_lookup fun _ hp => mem_lookupEntry_of_nodup hd hp

theorem pyNormIdx_coe {n i : Nat} (h : i < n) : pyNormIdx n (i : Int) = some i := by
  have h0 : ¬ ((i : Int) < 0) := by omega
  have h1 : (0 : Int) ≤ (i : Int) ∧ (i : Int) < (n : Int) := by omega
  simp [pyNormIdx, h0, h1]

theorem pyNormIdx_out_of_range {n : Nat} {i : Int}
    (h : i < -(n : Int) ∨ (n : Int) ≤ i) : pyNormIdx n i = none := by
  have hc : ¬ (0 ≤ (if i < 0 then i + n else i) ∧
      (if i < 0 then i + n else i) < (n : Int)) := by
    by_cases h0 : i < 0
    · rw [if_pos h0]
      omega
    · rw [if_neg h0]
      omega
  simp [pyNormIdx, hc]

/-! ## Invariant-preservation lemmas -/

theorem lookupEntry_reverse_of_nodup {l : List (String × Json)}
    (h : (l.map Prod.fst).Nodup) (k : String) :
    lookupEntry k l.reverse = lookupEntry k l := by
  induction l with
  | nil => rfl
  | cons p rest ih =>
    obtain ⟨k', v'⟩ := p
    simp only [List.map_cons, List.nodup_cons] at h
    rw [List.reverse_cons]
    by_cases hk : k' = k
    · subst hk
      have hnone : lookupEntry k' rest.reverse = none := by
        rw [lookupEntry_eq_none_iff, List.map_reverse, List.mem_reverse]
        exact h.1
      rw [lookupEntry_append_none _ hnone]
      simp [lookupEntry]
    · rw [lookupEntry]
      rw [if_neg hk, ← ih h.2]
      cases hrev : lookupEntry k rest.reverse with
      | some w => rw [lookupEntry_append_some _ hrev]
      | none =>
        rw [lookupEntry_append_none _ hrev]
        simp [lookupEntry, hk]

/-! ## Evaluation lemmas for the generic section operations -/

theorem appendTo_eq_of_arr {r : Resume} {key : String} {xs : List Json}
    (rec : Json) (hxs : lookupEntry key r.data = some (.arr xs)) :
    r.appendTo key rec = .ok (r.setItem key (.arr (xs ++ [rec]))) := by
  unfold Resume.appendTo Resume.getItem
  rw [hxs]

theorem delAt_eq_of_arr {r : Resume} {key : String} {xs : List Json}
    (index : Int) (hxs : lookupEntry key r.data = some (.arr xs)) :
    r.delAt key index =
      match pyNormIdx xs.length index with
      | some j => .ok (r.setItem key (.arr (xs.eraseIdx j)))
      | none => .error .indexError := by
  unfold Resume.delAt Resume.getItem
  rw [hxs]

theorem updAt_eq_of_arr {r : Resume} {key : String} {xs : List Json}
    (index : Int) (newFields : List (String × Json))
    (hxs : lookupEntry key r.data = some (.arr xs)) :
    r.updAt key index newFields =
      match pyNormIdx xs.length index with
      | none => .error .indexError
      | some j =>
        match xs.get? j with
        | none => .error .indexError
        | some (.obj fields) =>
          .ok (r.setItem key (.arr (xs.set j (.obj (dictUpdate fields newFields)))))
        | some _ => .error .attributeError := by
  unfold Resume.updAt Resume.getItem
  rw [hxs]

/-! ## Claim theorems -/

/-- C1, counterexample: the claim says every index outside `[0, length)` —
including every negative index — makes remove/update fail leaving the
state unchanged.  On a one-element `work` list, `remove_work (-1)` is a
Python negative index: it succeeds and deletes the last record, so the
document state changes. -/
theorem C1_counterexample :
    rOneWork.remove_work (-1) = .ok (rOneWork.setItem "work" (.arr [])) ∧
    rOneWork.setItem "work" (.arr []) ≠ rOneWork := by
  constructor
  · rfl
  · intro hcontra
    simp [rOneWork, Resume.init, Resume.setItem, updEntry, Resume.mk.injEq] at hcontra

/-- C1, amended: for every section list and every integer index outside
`[-length, length)`, the remove (`del self[key][index]`, `delAt`) and
update (`self[key][index].update(...)`, `updAt`) operations fail with an
IndexError, and a failed operation leaves the document state (and file
system) unchanged.  Indices in `[-length, 0)` are Python negative indices,
accepted and counted from the end of the list. -/
theorem C1_remove_update_out_of_range_fails {r : Resume} {key : String}
    {xs : List Json} {index : Int}
    (hxs : lookupEntry key r.data = some (.arr xs))
    (hout : index < -(xs.length : Int) ∨ (xs.length : Int) ≤ index) :
    r.delAt key index = .error .indexError ∧
    (∀ newFields, r.updAt key index newFields = .error .indexError) ∧
    (∀ fs op e, applyOp fs r op = .error e → step fs r op = (r, fs)) := by
  have hn := pyNormIdx_out_of_range hout
  refine ⟨?_, ?_, ?_⟩
  · rw [delAt_eq_of_arr index hxs, hn]
  · intro newFields
    rw [updAt_eq_of_arr index newFields hxs, hn]
  · intro fs op e he
    unfold step
    rw [he]

/-- C1 witness: on the default document, `work` is the empty list and
index `0` is out of range on both operations. -/
theorem C1_remove_update_out_of_range_fails_witness :
    Resume.initDefault.delAt "work" 0 = .error .indexError ∧
    Resume.initDefault.updAt "work" 0 [] = .error .indexError :=
  ⟨(C1_remove_update_out_of_range_fails
      (show lookupEntry "work" Resume.initDefault.data = some (Json.arr []) from rfl)
      (by decide)).1,
   (C1_remove_update_out_of_range_fails
      (show lookupEntry "work" Resume.initDefault.data = some (Json.arr []) from rfl)
      (by decide)).2.1 []⟩

/-- C5: for every section list and every index in `[0, length)`, remove
deletes exactly the record at that index — the result is the prefix before
it followed by the suffix after it, so all other records keep their
relative order — and the length decreases by exactly one. -/
theorem C5_remove_in_bounds_erases {r : Resume} {key : String}
    {xs : List Json} {i : Nat} (hxs : lookupEntry key r.data = some (.arr xs))
    (hi : i < xs.length) :
    r.delAt key (i : Int) =
      .ok (r.setItem key (.arr (xs.take i ++ xs.drop (i + 1)))) ∧
    (xs.take i ++ xs.drop (i + 1)).length + 1 = xs.length := by
  constructor
  · rw [delAt_eq_of_arr _ hxs, pyNormIdx_coe hi]
    show Except.ok (r.setItem key (Json.arr (xs.eraseIdx i))) = _
    rw [List.eraseIdx_eq_take_drop_succ]
  · rw [← List.eraseIdx_eq_take_drop_succ]
    exact List.length_eraseIdx_add_one hi

/-- C5 witness: removing index 0 from a one-record `work` list leaves the
empty list. -/
theorem C5_remove_in_bounds_erases_witness :
    rOneWork.delAt "work" ((0 : Nat) : Int) =
      .ok (rOneWork.setItem "work" (.arr ([Json.obj []].take 0 ++ [Json.obj []].drop 1))) ∧
    ([Json.obj []].take 0 ++ [Json.obj []].drop 1).length + 1 = [Json.obj []].length :=
  C5_remove_in_bounds_erases
    (show lookupEntry "work" rOneWork.data = some (Json.arr [Json.obj []]) from rfl)
    (by decide)

/-- C4: for every document state and valid field tuple, the add operation
appends exactly one record at the end of its section list (length grows by
exactly 1), and the new record's fields are the given inputs with every
date normalized to its ISO-8601 string (`workRecord` stores
`start_date.isoformat` and `endDateJson end_date`; `skillRecord` stores
the inputs unchanged). -/
theorem C4_add_appends_record {r : Resume} :
    (∀ key rec xs, lookupEntry key r.data = some (.arr xs) →
      r.appendTo key rec = .ok (r.setItem key (.arr (xs ++ [rec]))) ∧
      (xs ++ [rec]).length = xs.length + 1) ∧
    (∀ xs name level keywords,
      lookupEntry "skills" r.data = some (.arr xs) →
      r.add_skill name level keywords =
        .ok (r.setItem "skills"
          (.arr (xs ++ [.obj (skillRecord name level keywords)])))) ∧
    (∀ xs company position website summary highlights start_date end_date,
      lookupEntry "work" r.data = some (.arr xs) →
      r.add_work company position website summary highlights start_date end_date =
        .ok (r.setItem "work" (.arr (xs ++ [.obj (workRecord company position
          website summary highlights start_date end_date)])))) := by
  refine ⟨?_, ?_, ?_⟩
  · intro key rec xs hxs
    exact ⟨appendTo_eq_of_arr rec hxs, by simp⟩
  · intro xs name level keywords hxs
    exact appendTo_eq_of_arr _ hxs
  · intro xs company position website summary highlights start_date end_date hxs
    exact appendTo_eq_of_arr _ hxs

/-- C4 witness: the spec's example — `addSkill("Go", "Intermediate",
["concurrency", "tooling"])` on the empty document yields exactly that
one-record skills list. -/
theorem C4_add_appends_record_witness :
    Resume.initDefault.add_skill "Go" "Intermediate"
        [Json.str "concurrency", Json.str "tooling"] =
      .ok (Resume.initDefault.setItem "skills"
        (.arr ([] ++ [.obj (skillRecord "Go" "Intermediate"
          [Json.str "concurrency", Json.str "tooling"])]))) ∧
    lookupEntry "skills"
        (Resume.initDefault.setItem "skills"
          (.arr ([] ++ [.obj (skillRecord "Go" "Intermediate"
            [Json.str "concurrency", Json.str "tooling"])]))).data =
      some (.arr [.obj [("name", .str "Go"), ("level", .str "Intermediate"),
        ("keywords", .arr [.str "concurrency", .str "tooling"])]]) :=
  ⟨C4_add_appends_record.2.1 [] "Go" "Intermediate"
      [Json.str "concurrency", Json.str "tooling"]
      (show lookupEntry "skills" Resume.initDefault.data = some (Json.arr [])
        from rfl),
   rfl⟩

/-- C3: a date-typed field that can be given no value (the `end_date`
parameter of the work/volunteer/education adds, defaulting to `None`) is
stored as JSON null in the new record, the add succeeds (no error from the
missing date), and the mandatory `start_date` is stored as its ISO-8601
string. -/
theorem C3_absent_end_date_stored_null {r : Resume} :
    endDateJson none = Json.null ∧
    (∀ xs c p w s hl sd, lookupEntry "work" r.data = some (.arr xs) →
      r.add_work c p w s hl sd none =
        .ok (r.setItem "work" (.arr (xs ++ [.obj (workRecord c p w s hl sd none)]))) ∧
      lookupEntry "endDate" (workRecord c p w s hl sd none) = some .null ∧
      lookupEntry "startDate" (workRecord c p w s hl sd none) =
        some (.str sd.isoformat)) ∧
    (∀ xs o p w s hl sd, lookupEntry "volunteer" r.data = some (.arr xs) →
      r.add_volunteer o p w s hl sd none =
        .ok (r.setItem "volunteer"
          (.arr (xs ++ [.obj (volunteerRecord o p w s hl sd none)]))) ∧
      lookupEntry "endDate" (volunteerRecord o p w s hl sd none) = some .null) ∧
    (∀ xs i a st g cs sd, lookupEntry "education" r.data = some (.arr xs) →
      r.add_education i a st g cs sd none =
        .ok (r.setItem "education"
          (.arr (xs ++ [.obj (educationRecord i a st g cs sd none)]))) ∧
      lookupEntry "endDate" (educationRecord i a st g cs sd none) = some .null) := by
  refine ⟨rfl, ?_, ?_, ?_⟩
  · intro xs c p w s hl sd hxs
    exact ⟨appendTo_eq_of_arr _ hxs, rfl, rfl⟩
  · intro xs o p w s hl sd hxs
    exact ⟨appendTo_eq_of_arr _ hxs, rfl⟩
  · intro xs i a st g cs sd hxs
    exact ⟨appendTo_eq_of_arr _ hxs, rfl⟩

/-- C3 witness: the spec's example — `addWork("Acme", "Engineer",
"acme.com", "desc", ["shipped X"], 2020-01-01, None)` succeeds, stores
`endDate` as null and `startDate` as `"2020-01-01"`. -/
theorem C3_absent_end_date_stored_null_witness :
    (Resume.initDefault.add_work "Acme" "Engineer" "acme.com" "desc"
        [Json.str "shipped X"] ⟨2020, 1, 1⟩ none =
      .ok (Resume.initDefault.setItem "work" (.arr ([] ++ [.obj (workRecord
        "Acme" "Engineer" "acme.com" "desc" [Json.str "shipped X"]
        ⟨2020, 1, 1⟩ none)]))) ∧
      lookupEntry "endDate" (workRecord "Acme" "Engineer" "acme.com" "desc"
        [Json.str "shipped X"] ⟨2020, 1, 1⟩ none) = some .null ∧
      lookupEntry "startDate" (workRecord "Acme" "Engineer" "acme.com" "desc"
        [Json.str "shipped X"] ⟨2020, 1, 1⟩ none) =
          some (.str (Date.isoformat ⟨2020, 1, 1⟩))) ∧
    Date.isoformat ⟨2020, 1, 1⟩ = "2020-01-01" :=
  ⟨C3_absent_end_date_stored_null.2.1 [] "Acme" "Engineer" "acme.com" "desc"
      [Json.str "shipped X"] ⟨2020, 1, 1⟩
      (show lookupEntry "work" Resume.initDefault.data = some (Json.arr [])
        from rfl),
   by decide⟩

/-- C7: updating a record at an in-bounds index merges only the named
fields into that record: every field of the record not named in the update
keeps its value, named fields take the new values, every other record of
the section is untouched (and the section keeps its length), every other
key of `data` is untouched, and `location` is unchanged. -/
theorem C7_update_only_named_fields {r : Resume} {key : String}
    {xs : List Json} {i : Nat} {fields : List (String × Json)}
    (hxs : lookupEntry key r.data = some (.arr xs)) (hlen : i < xs.length)
    (hrec : xs.get? i = some (.obj fields))
    (newFields : List (String × Json)) :
    r.updAt key (i : Int) newFields =
      .ok (r.setItem key
        (.arr (xs.set i (.obj (dictUpdate fields newFields))))) ∧
    (∀ f, f ∉ newFields.map Prod.fst →
      lookupEntry f (dictUpdate fields newFields) = lookupEntry f fields) ∧
    ((newFields.map Prod.fst).Nodup → ∀ f v, lookupEntry f newFields = some v →
      lookupEntry f (dictUpdate fields newFields) = some v) ∧
    (∀ j, j ≠ i →
      (xs.set i (.obj (dictUpdate fields newFields))).get? j = xs.get? j) ∧
    (xs.set i (.obj (dictUpdate fields newFields))).length = xs.length ∧
    (∀ k, k ≠ key →
      lookupEntry k (r.setItem key
        (.arr (xs.set i (.obj (dictUpdate fields newFields))))).data =
        lookupEntry k r.data) ∧
    (r.setItem key
      (.arr (xs.set i (.obj (dictUpdate fields newFields))))).location =
      r.location := by
  refine ⟨?_, ?_, ?_, ?_, ?_, ?_, rfl⟩
  · rw [updAt_eq_of_arr _ newFields hxs, pyNormIdx_coe hlen]
    show (match xs.get? i with
      | none => Except.error PyErr.indexError
      | some (.obj flds) =>
        Except.ok (r.setItem key (.arr (xs.set i (.obj (dictUpdate flds newFields)))))
      | some _ => Except.error PyErr.attributeError) = _
    rw [hrec]
  · intro f hf
    apply lookupEntry_dictUpdate_none
    rw [lookupEntry_eq_none_iff, List.map_reverse, List.mem_reverse]
    exact hf
  · intro hnd f v hv
    apply lookupEntry_dictUpdate_some
    rw [lookupEntry_reverse_of_nodup hnd]
    exact hv
  · intro j hj
    exact List.get?_set_ne _ _ (fun hh => hj hh.symm)
  · exact List.length_set xs i _
  · intro k hk
    show lookupEntry k (updEntry key _ r.data) = _
    rw [lookupEntry_updEntry, if_neg (fun hh => hk hh.symm)]
  
/-- C7 witness: updating the one record of `work` (a record that also
carries an extra ad-hoc field `"x"`) with a one-field update keeps the
other fields. -/
theorem C7_update_only_named_fields_witness :
    (Resume.init "" [] [Json.obj [("x", Json.num 7), ("company", Json.str "A")]]
        [] [] [] [] [] [] [] []).updAt "work" ((0 : Nat) : Int)
        [("company", Json.str "B")] =
      .ok ((Resume.init "" [] [Json.obj [("x", Json.num 7), ("company", Json.str "A")]]
        [] [] [] [] [] [] [] []).setItem "work"
        (.arr ([Json.obj [("x", Json.num 7), ("company", Json.str "A")]].set 0
          (.obj (dictUpdate [("x", Json.num 7), ("company", Json.str "A")]
            [("company", Json.str "B")]))))) ∧
    lookupEntry "x" (dictUpdate [("x", Json.num 7), ("company", Json.str "A")]
      [("company", Json.str "B")]) = lookupEntry "x"
        [("x", Json.num 7), ("company", Json.str "A")] ∧
    lookupEntry "company" (dictUpdate [("x", Json.num 7), ("company", Json.str "A")]
      [("company", Json.str "B")]) = some (Json.str "B") := by
  have h := C7_update_only_named_fields
    (show lookupEntry "work" (Resume.init "" []
        [Json.obj [("x", Json.num 7), ("company", Json.str "A")]]
        [] [] [] [] [] [] [] []).data =
      some (Json.arr [Json.obj [("x", Json.num 7), ("company", Json.str "A")]])
      from rfl)
    (by decide)
    (show [Json.obj [("x", Json.num 7), ("company", Json.str "A")]].get? 0 =
      some (Json.obj [("x", Json.num 7), ("company", Json.str "A")]) from rfl)
    [("company", Json.str "B")]
  exact ⟨h.1, h.2.1 "x" (by decide), h.2.2.1 (by decide) "company" (Json.str "B") rfl⟩

/-- C9: on the default-constructed document `basics` is the empty dict, so
`update_location` raises `KeyError('location')` and `add_profile` raises
`KeyError('profiles')`; the failed calls leave the document (and file
system) unchanged, creating none of the missing nested structure. -/
theorem C9_default_basics_nested_key_errors
    (address postal_code city country_code region network username url : String) :
    Resume.initDefault.update_location address postal_code city country_code
      region = .error (.keyError "location") ∧
    Resume.initDefault.add_profile network username url =
      .error (.keyError "profiles") ∧
    (∀ fs, step fs Resume.initDefault
      (.updateLocation address postal_code city country_code region) =
      (Resume.initDefault, fs)) ∧
    (∀ fs, step fs Resume.initDefault (.addProfile network username url) =
      (Resume.initDefault, fs)) := by
  refine ⟨rfl, rfl, fun fs => rfl, fun fs => rfl⟩

/-- C10: when the path has no file, or the file is not valid JSON,
`open_from_file` raises (`FileNotFoundError` / `json.JSONDecodeError`)
before `self.data.update` and `self.location = location` run, so all
sections and the location are exactly as before the call. -/
theorem C10_failed_open_preserves_state (fs : FS) (r : Resume) (path : String) :
    (fs path = none →
      r.open_from_file fs path = .error .fileNotFound ∧
      step fs r (.openFile path) = (r, fs)) ∧
    (fs path = some .invalid →
      r.open_from_file fs path = .error .jsonDecodeError ∧
      step fs r (.openFile path) = (r, fs)) := by
  constructor
  · intro h
    have h1 : r.open_from_file fs path = .error .fileNotFound := by
      unfold Resume.open_from_file
      rw [h]
    refine ⟨h1, ?_⟩
    show (match Except.map (fun x => (x, fs)) (r.open_from_file fs path) with
      | Except.ok q => q
      | Except.error _ => (r, fs)) = (r, fs)
    rw [h1]
    rfl
  · intro h
    have h1 : r.open_from_file fs path = .error .jsonDecodeError := by
      unfold Resume.open_from_file
      rw [h]
    refine ⟨h1, ?_⟩
    show (match Except.map (fun x => (x, fs)) (r.open_from_file fs path) with
      | Except.ok q => q
      | Except.error _ => (r, fs)) = (r, fs)
    rw [h1]
    rfl

/-- C10 witness: a missing path and an unparseable file, against the
default document. -/
theorem C10_failed_open_preserves_state_witness :
    (Resume.initDefault.open_from_file fsEmpty "r.json" =
        .error .fileNotFound ∧
      step fsEmpty Resume.initDefault (.openFile "r.json") =
        (Resume.initDefault, fsEmpty)) ∧
    (Resume.initDefault.open_from_file fsInvalidFile "bad.json" =
        .error .jsonDecodeError ∧
      step fsInvalidFile Resume.initDefault (.openFile "bad.json") =
        (Resume.initDefault, fsInvalidFile)) :=
  ⟨(C10_failed_open_preserves_state fsEmpty Resume.initDefault "r.json").1 rfl,
   (C10_failed_open_preserves_state fsInvalidFile Resume.initDefault
      "bad.json").2 rfl⟩

/-- C6: with a destination set, `save` writes the ten sections as a JSON
object to `location`, and re-`open`ing that path merges the document's own
dictionary back into itself, which changes nothing — so every section (in
fact the whole document) is reproduced equal.  The embedding stores only
JSON values, so the claim's hypothesis that date fields are already
ISO-8601 strings is automatic: `add`/`update` convert dates to strings
before storing. -/
theorem C6_save_open_round_trip {fs : FS} {r : Resume}
    (hloc : ¬ r.location = "") (hnd : r.dataKeysNodup) :
    ∃ fsNew, r.save fs = .ok fsNew ∧
      r.open_from_file fsNew r.location = .ok r := by
  refine ⟨fun p => if p = r.location then some (.valid (.obj r.data)) else fs p,
    ?_, ?_⟩
  · unfold Resume.save
    rw [if_neg hloc]
  · have hfile : (fun p => if p = r.location
        then some (FileContent.valid (Json.obj r.data)) else fs p) r.location =
        some (.valid (.obj r.data)) := by simp
    unfold Resume.open_from_file
    rw [hfile]
    show Except.ok ⟨r.location, dictUpdate r.data r.data⟩ = Except.ok r
    rw [dictUpdate_self hnd]

/-- C6 witness: a concrete empty document saved to and re-opened from
`a.json`. -/
theorem C6_save_open_round_trip_witness :
    ∃ fsNew, rSaved.save fsEmpty = .ok fsNew ∧
      rSaved.open_from_file fsNew rSaved.location = .ok rSaved :=
  C6_save_open_round_trip (by decide)
    (by
      show (rSaved.data.map Prod.fst).Nodup
      decide)

/-- C2, counterexample: the claim says sections not present in the opened
file become empty.  Opening a file whose JSON text is the empty object
(`{}`) over a document with one work record leaves `work` still holding
that record — `self.data.update(resume)` merges, it does not replace. -/
theorem C2_counterexample :
    rOneWork.open_from_file fsEmptyObjFile "r.json" =
      .ok ⟨"r.json", rOneWork.data⟩ ∧
    lookupEntry "work" rOneWork.data = some (.arr [Json.obj []]) ∧
    Json.arr [Json.obj []] ≠ Json.arr [] := by
  refine ⟨rfl, rfl, ?_⟩
  simp

/-- C2, amended: for every path whose file parses as a JSON object,
`open(path)` merges the parsed object into the document: each section
present in the file is replaced by the file's value, each section not
present in the file keeps its previous value (it does not become empty),
and the location is set to `path`. -/
theorem C2_open_merges_sections {fs : FS} {r : Resume} {path : String}
    {fields : List (String × Json)}
    (hf : fs path = some (.valid (.obj fields)))
    (hnd : (fields.map Prod.fst).Nodup) :
    ∃ rNew, r.open_from_file fs path = .ok rNew ∧
      rNew.location = path ∧
      (∀ c v, lookupEntry c fields = some v →
        lookupEntry c rNew.data = some v) ∧
      (∀ c, lookupEntry c fields = none →
        lookupEntry c rNew.data = lookupEntry c r.data) := by
  refine ⟨⟨path, dictUpdate r.data fields⟩, ?_, rfl, ?_, ?_⟩
  · unfold Resume.open_from_file
    rw [hf]
    rfl
  · intro c v hv
    apply lookupEntry_dictUpdate_some
    rw [lookupEntry_reverse_of_nodup hnd]
    exact hv
  · intro c hv
    apply lookupEntry_dictUpdate_none
    rw [lookupEntry_reverse_of_nodup hnd]
    exact hv

/-- C2 witness: opening a file containing `{"skills": [{}]}` over the
one-work-record document replaces `skills` and keeps `work`. -/
theorem C2_open_merges_sections_witness :
    ∃ rNew, rOneWork.open_from_file
        (fun p => if p = "s.json"
          then some (.valid (.obj [("skills", Json.arr [Json.obj []])]))
          else none) "s.json" = .ok rNew ∧
      rNew.location = "s.json" ∧
      (∀ c v, lookupEntry c [("skills", Json.arr [Json.obj []])] = some v →
        lookupEntry c rNew.data = some v) ∧
      (∀ c, lookupEntry c [("skills", Json.arr [Json.obj []])] = none →
        lookupEntry c rNew.data = lookupEntry c rOneWork.data) :=
  C2_open_merges_sections
    (show (fun p => if p = "s.json"
        then some (FileContent.valid (Json.obj [("skills", Json.arr [Json.obj []])]))
        else none) "s.json" =
      some (.valid (.obj [("skills", Json.arr [Json.obj []])])) from rfl)
    (by decide)

/-- `dict.update` on a JSON array of key/value pairs merges it, as CPython
does: opening a file reading `[["work", 5]]` succeeds and stores the
number 5 under `work`, breaking the section typing — which is why `fsOk`
constrains array files as well as object files. -/
theorem open_from_file_merges_pair_list :
    ∃ rNew, Resume.initDefault.open_from_file
        (fun p => if p = "r.json"
          then some (.valid (.arr [Json.arr [Json.str "work", Json.num 5]]))
          else none) "r.json" = .ok rNew ∧
      lookupEntry "work" rNew.data = some (Json.num 5) ∧
      rNew.sectionsWellTyped = false := by
  refine ⟨_, rfl, ?_, ?_⟩ <;> rfl

/-- The constraint `fsOk` rejects a file system carrying the pair list
`[["work", 5]]`, since that pair names the section key `work` with a
non-list value. -/
theorem not_fsOk_pair_list :
    ¬ fsOk (fun p => if p = "r.json"
        then some (.valid (.arr [Json.arr [Json.str "work", Json.num 5]]))
        else none) := by
  intro hfs
  have h := hfs "r.json" (.arr [Json.arr [Json.str "work", Json.num 5]]) rfl
  have h2 := h (Json.arr [Json.str "work", Json.num 5])
    (List.mem_singleton.mpr rfl) "work" (Json.num 5) rfl (by decide)
  simp [sectionTypeOk, Json.isArr] at h2
